import Mathlib

/-!
# Verification development for `stub_headers/avfoundation_stub.h`

The repository is a single declaration-only header.  The embedding below is a
line-by-line transcription of that header as a Lean value (`header`), together
with the small amount of C / Objective-C declaration semantics the properties
need: typedef resolution, natural-alignment struct layout, enumeration
decoding, the superclass walk, member resolution along that walk, and
top-to-bottom name resolution.
-/

namespace AVFoundationStub

/-! ## Syntax of the header -/

/-- Built-in C / Objective-C types that need no declaration.  The spelling
`signed long long` of line 5 denotes the type `long long`, and `unsigned int`,
`unsigned long`, `unsigned long long` are the unsigned variants. -/
inductive Prim where
  | int
  | uint
  | long
  | ulong
  | llong
  | ullong
  | float
  | double
  | void
  | id
  | Class
  | instancetype
  deriving DecidableEq, Repr

/-- Head of a type expression: a built-in, or an identifier that has to be
resolved (a typedef name, a class name or a generic parameter). -/
inductive Base where
  | prim (p : Prim)
  | named (n : String)
  deriving DecidableEq, Repr

/-- Type argument between angle brackets, such as `AVAssetTrack *` or `id`. -/
structure TyArg where
  base : Base
  ptr : Bool
  deriving DecidableEq, Repr

/-- Type expression as written in the header: head, generic arguments, and
whether a `*` follows. -/
structure Ty where
  base : Base
  args : List TyArg
  ptr : Bool
  deriving DecidableEq, Repr

/-- Declaration `typedef <target> <name>;` at line `line`. -/
structure TypedefDecl where
  line : Nat
  name : String
  target : Base
  deriving DecidableEq, Repr

/-- One struct field: its line, its name and its declared type name. -/
structure Field where
  line : Nat
  name : String
  type : Base
  deriving DecidableEq, Repr

/-- Declaration `typedef struct { fields } name;`; `line` is the line of the
closing brace, where the name is introduced. -/
structure StructDecl where
  line : Nat
  name : String
  fields : List Field
  deriving DecidableEq, Repr

/-- One enumerator `name = value`. -/
structure EnumConst where
  line : Nat
  name : String
  value : Int
  deriving DecidableEq, Repr

/-- Declaration `typedef enum { constants } name;`; `line` is the line of the
closing brace. -/
structure EnumDecl where
  line : Nat
  name : String
  constants : List EnumConst
  deriving DecidableEq, Repr

/-- Declaration of an external constant `<type> const <name>;` (storage class
`extern`). -/
structure ConstDecl where
  line : Nat
  name : String
  type : Ty
  deriving DecidableEq, Repr

/-- Attributes that occur between the parentheses of `@property(...)`. -/
inductive PropAttr where
  | readonly
  | copy
  | retain
  | nonatomic
  deriving DecidableEq, Repr

/-- Whether a member is a class method (`+`), an instance method (`-`) or a
property. -/
inductive MemberKind where
  | classMethod
  | instanceMethod
  | property
  deriving DecidableEq, Repr

/-- One member of an interface.  For a method `name` is the full selector
(`setTransform:atTime:`), `type` the return type and `params` the argument
types with their parameter names; for a property `name` is the property name,
`type` its type, `params` is empty and `attrs` its attribute list. -/
structure Member where
  line : Nat
  kind : MemberKind
  name : String
  type : Ty
  params : List (Ty × String)
  attrs : List PropAttr
  deriving DecidableEq, Repr

/-- Declaration `@interface name<typeParams> : super <superArgs> ... @end`. -/
structure Interface where
  line : Nat
  name : String
  typeParams : List String
  super : Option String
  superArgs : List String
  members : List Member
  deriving DecidableEq, Repr

/-- Top-level item of the header.  A preprocessor line (`#include`, `#import`,
`@import`) would be a `directive`; the header has none. -/
inductive Decl where
  | typedef (d : TypedefDecl)
  | struct (d : StructDecl)
  | enum (d : EnumDecl)
  | stringConst (d : ConstDecl)
  | interface (d : Interface)
  | directive (line : Nat) (text : String)
  deriving DecidableEq, Repr

/-! ## Abbreviations used in the transcription -/

/-- Plain (non-pointer, non-generic) use of a built-in type. -/
def tPrim (p : Prim) : Ty := { base := Base.prim p, args := [], ptr := false }

/-- Plain use of a declared name, such as `CGSize`. -/
def tName (n : String) : Ty := { base := Base.named n, args := [], ptr := false }

/-- Pointer to a declared name, such as `NSString *`. -/
def tPtr (n : String) : Ty := { base := Base.named n, args := [], ptr := true }

/-- Pointer to a generic instance, such as `NSArray<AVAssetTrack *> *`. -/
def tGen (n : String) (args : List TyArg) : Ty :=
  { base := Base.named n, args := args, ptr := true }

/-- Type argument `name *`. -/
def aPtr (n : String) : TyArg := { base := Base.named n, ptr := true }

/-- Class method `+ (ret)name params`. -/
def classM (line : Nat) (ret : Ty) (name : String) (params : List (Ty × String)) : Member :=
  { line := line, kind := MemberKind.classMethod, name := name, type := ret,
    params := params, attrs := [] }

/-- Instance method `- (ret)name params`. -/
def instM (line : Nat) (ret : Ty) (name : String) (params : List (Ty × String)) : Member :=
  { line := line, kind := MemberKind.instanceMethod, name := name, type := ret,
    params := params, attrs := [] }

/-- Property `@property(attrs) type name;`. -/
def prop (line : Nat) (attrs : List PropAttr) (type : Ty) (name : String) : Member :=
  { line := line, kind := MemberKind.property, name := name, type := type,
    params := [], attrs := attrs }

/-! ## The header, in source order -/

/-- Lines 5-10 and 13, 26, 27: the scalar aliases. -/
def typedefs : List TypedefDecl :=
  [ { line := 5, name := "int64_t", target := Base.prim Prim.llong },
    { line := 6, name := "int32_t", target := Base.prim Prim.int },
    { line := 7, name := "uint32_t", target := Base.prim Prim.uint },
    { line := 8, name := "uint64_t", target := Base.prim Prim.ullong },
    { line := 9, name := "NSInteger", target := Base.prim Prim.long },
    { line := 10, name := "NSUInteger", target := Base.prim Prim.ulong },
    { line := 13, name := "CGFloat", target := Base.prim Prim.double },
    { line := 26, name := "CMTimeScale", target := Base.named "int32_t" },
    { line := 27, name := "CMTimeValue", target := Base.named "int64_t" } ]

/-- Lines 15-18. -/
def CGSize : StructDecl :=
  { line := 18, name := "CGSize",
    fields := [ { line := 16, name := "width", type := Base.named "CGFloat" },
                { line := 17, name := "height", type := Base.named "CGFloat" } ] }

/-- Lines 20-23. -/
def CGAffineTransform : StructDecl :=
  { line := 23, name := "CGAffineTransform",
    fields := [ { line := 21, name := "a", type := Base.named "CGFloat" },
                { line := 21, name := "b", type := Base.named "CGFloat" },
                { line := 21, name := "c", type := Base.named "CGFloat" },
                { line := 21, name := "d", type := Base.named "CGFloat" },
                { line := 22, name := "tx", type := Base.named "CGFloat" },
                { line := 22, name := "ty", type := Base.named "CGFloat" } ] }

/-- Lines 28-33. -/
def CMTime : StructDecl :=
  { line := 33, name := "CMTime",
    fields := [ { line := 29, name := "value", type := Base.named "CMTimeValue" },
                { line := 30, name := "timescale", type := Base.named "CMTimeScale" },
                { line := 31, name := "flags", type := Base.named "uint32_t" },
                { line := 32, name := "epoch", type := Base.named "int64_t" } ] }

/-- Lines 35-38. -/
def CMTimeRange : StructDecl :=
  { line := 38, name := "CMTimeRange",
    fields := [ { line := 36, name := "start", type := Base.named "CMTime" },
                { line := 37, name := "duration", type := Base.named "CMTime" } ] }

/-- The four value structs, in source order. -/
def structs : List StructDecl := [CGSize, CGAffineTransform, CMTime, CMTimeRange]

/-- Lines 74-81. -/
def AVAssetExportSessionStatus : EnumDecl :=
  { line := 81, name := "AVAssetExportSessionStatus",
    constants :=
      [ { line := 75, name := "AVAssetExportSessionStatusUnknown", value := 0 },
        { line := 76, name := "AVAssetExportSessionStatusWaiting", value := 1 },
        { line := 77, name := "AVAssetExportSessionStatusExporting", value := 2 },
        { line := 78, name := "AVAssetExportSessionStatusCompleted", value := 3 },
        { line := 79, name := "AVAssetExportSessionStatusFailed", value := 4 },
        { line := 80, name := "AVAssetExportSessionStatusCancelled", value := 5 } ] }

/-- Lines 84-86. -/
def stringConstants : List ConstDecl :=
  [ { line := 84, name := "AVAssetExportPresetLowQuality", type := tPtr "NSString" },
    { line := 85, name := "AVAssetExportPresetMediumQuality", type := tPtr "NSString" },
    { line := 86, name := "AVAssetExportPresetHighestQuality", type := tPtr "NSString" } ]

/-- Lines 44-71 and 90-164: every `@interface`, in source order. -/
def interfaces : List Interface :=
  [ { line := 44, name := "NSObject", typeParams := [], super := none, superArgs := [],
      members :=
        [ classM 45 (tPrim Prim.instancetype) "alloc" [],
          instM 46 (tPrim Prim.instancetype) "init" [] ] },
    { line := 49, name := "NSString", typeParams := [], super := some "NSObject",
      superArgs := [], members := [] },
    { line := 52, name := "NSArray", typeParams := ["ObjectType"], super := some "NSObject",
      superArgs := [],
      members :=
        [ instM 53 (tName "ObjectType") "objectAtIndex:" [(tName "NSUInteger", "index")],
          prop 54 [PropAttr.readonly] (tName "NSUInteger") "count",
          classM 55 (tPrim Prim.instancetype) "array" [],
          instM 56 (tPrim Prim.void) "addObject:" [(tName "ObjectType", "anObject")] ] },
    { line := 59, name := "NSMutableArray", typeParams := ["ObjectType"],
      super := some "NSArray", superArgs := ["ObjectType"], members := [] },
    { line := 62, name := "NSDictionary", typeParams := ["KeyType", "ObjectType"],
      super := some "NSObject", superArgs := [],
      members := [ classM 63 (tPrim Prim.instancetype) "dictionary" [] ] },
    { line := 66, name := "NSURL", typeParams := [], super := some "NSObject", superArgs := [],
      members :=
        [ classM 67 (tPrim Prim.instancetype) "fileURLWithPath:" [(tPtr "NSString", "path")] ] },
    { line := 70, name := "NSError", typeParams := [], super := some "NSObject",
      superArgs := [], members := [] },
    { line := 90, name := "AVAssetTrack", typeParams := [], super := some "NSObject",
      superArgs := [],
      members :=
        [ prop 91 [PropAttr.readonly] (tName "CGSize") "naturalSize",
          prop 92 [PropAttr.readonly] (tName "CGAffineTransform") "preferredTransform",
          prop 93 [PropAttr.readonly] (tPrim Prim.float) "nominalFrameRate" ] },
    { line := 96, name := "AVAsset", typeParams := [], super := some "NSObject",
      superArgs := [],
      members :=
        [ instM 97 (tGen "NSArray" [aPtr "AVAssetTrack"]) "tracksWithMediaType:"
            [(tPtr "NSString", "mediaType")] ] },
    { line := 100, name := "AVURLAsset", typeParams := [], super := some "AVAsset",
      superArgs := [],
      members :=
        [ classM 101 (tPrim Prim.instancetype) "URLAssetWithURL:options:"
            [ (tPtr "NSURL", "URL"),
              (tGen "NSDictionary"
                 [aPtr "NSString", { base := Base.prim Prim.id, ptr := false }], "options") ] ] },
    { line := 105, name := "AVVideoCompositionInstruction", typeParams := [],
      super := some "NSObject", superArgs := [], members := [] },
    { line := 108, name := "AVMutableVideoCompositionInstruction", typeParams := [],
      super := some "AVVideoCompositionInstruction", superArgs := [],
      members :=
        [ prop 109 [] (tName "CMTimeRange") "timeRange",
          prop 110 [PropAttr.copy] (tPtr "NSArray") "layerInstructions",
          classM 111 (tPrim Prim.instancetype) "videoCompositionInstruction" [] ] },
    { line := 114, name := "AVVideoCompositionLayerInstruction", typeParams := [],
      super := some "NSObject", superArgs := [], members := [] },
    { line := 117, name := "AVMutableVideoCompositionLayerInstruction", typeParams := [],
      super := some "AVVideoCompositionLayerInstruction", superArgs := [],
      members :=
        [ classM 119 (tPrim Prim.instancetype)
            "videoCompositionLayerInstructionWithAssetTrack:" [(tPtr "AVAssetTrack", "track")],
          instM 121 (tPrim Prim.void) "setTransform:atTime:"
            [(tName "CGAffineTransform", "transform"), (tName "CMTime", "time")] ] },
    { line := 124, name := "AVVideoComposition", typeParams := [], super := some "NSObject",
      superArgs := [], members := [] },
    { line := 127, name := "AVMutableVideoComposition", typeParams := [],
      super := some "AVVideoComposition", superArgs := [],
      members :=
        [ prop 128 [PropAttr.copy] (tGen "NSArray" [aPtr "AVVideoCompositionInstruction"])
            "instructions",
          prop 129 [PropAttr.retain] (tPrim Prim.Class) "customVideoCompositorClass",
          prop 130 [] (tName "CMTime") "frameDuration",
          prop 131 [] (tName "CGSize") "renderSize",
          prop 132 [] (tPrim Prim.float) "renderScale",
          classM 133 (tPrim Prim.instancetype) "videoComposition" [] ] },
    { line := 136, name := "AVAudioMix", typeParams := [], super := some "NSObject",
      superArgs := [], members := [] },
    { line := 139, name := "AVMutableAudioMix", typeParams := [], super := some "AVAudioMix",
      superArgs := [],
      members :=
        [ prop 140 [PropAttr.copy] (tPtr "NSArray") "inputParameters",
          classM 141 (tPrim Prim.instancetype) "audioMix" [] ] },
    { line := 144, name := "AVAudioMixInputParameters", typeParams := [],
      super := some "NSObject", superArgs := [], members := [] },
    { line := 147, name := "AVMutableAudioMixInputParameters", typeParams := [],
      super := some "AVAudioMixInputParameters", superArgs := [],
      members :=
        [ prop 148 [PropAttr.retain] (tPtr "AVAssetTrack") "track",
          classM 149 (tPrim Prim.instancetype) "audioMixInputParametersWithTrack:"
            [(tPtr "AVAssetTrack", "track")],
          instM 150 (tPrim Prim.void) "setVolume:atTime:"
            [(tPrim Prim.float, "volume"), (tName "CMTime", "time")] ] },
    { line := 153, name := "AVAssetExportSession", typeParams := [], super := some "NSObject",
      superArgs := [],
      members :=
        [ classM 154 (tPrim Prim.instancetype) "exportSessionWithAsset:presetName:"
            [(tPtr "AVAsset", "asset"), (tPtr "NSString", "presetName")],
          prop 156 [PropAttr.nonatomic, PropAttr.copy] (tPtr "NSURL") "outputURL",
          prop 157 [PropAttr.nonatomic, PropAttr.copy] (tPtr "NSString") "outputFileType",
          prop 158 [PropAttr.copy] (tPtr "AVVideoComposition") "videoComposition",
          prop 159 [PropAttr.copy] (tPtr "AVAudioMix") "audioMix",
          instM 160 (tPrim Prim.void) "exportAsynchronouslyWithCompletionHandler:"
            [({ base := Base.prim Prim.void, args := [], ptr := true }, "handler")],
          prop 161 [PropAttr.readonly] (tName "AVAssetExportSessionStatus") "status",
          prop 162 [PropAttr.readonly] (tPtr "NSError") "error",
          prop 163 [PropAttr.nonatomic] (tName "CMTimeRange") "timeRange" ] } ]

/-- The whole header: every top-level declaration in source order. -/
def header : List Decl :=
  ((typedefs.take 7).map Decl.typedef) ++
  [Decl.struct CGSize, Decl.struct CGAffineTransform] ++
  ((typedefs.drop 7).map Decl.typedef) ++
  [Decl.struct CMTime, Decl.struct CMTimeRange] ++
  ((interfaces.take 7).map Decl.interface) ++
  [Decl.enum AVAssetExportSessionStatus] ++
  (stringConstants.map Decl.stringConst) ++
  ((interfaces.drop 7).map Decl.interface)

/-! ## Typedef resolution and natural-alignment layout -/

/-- Sizes in bytes that a target assigns to the built-in scalar types. -/
structure DataModel where
  intBytes : Nat
  longBytes : Nat
  llongBytes : Nat
  floatBytes : Nat
  doubleBytes : Nat
  pointerBytes : Nat
  deriving DecidableEq, Repr

/-- A resolved scalar: signed or unsigned integer, floating point number or
pointer, with its width in bits. -/
inductive Scalar where
  | sint (bits : Nat)
  | uint (bits : Nat)
  | flt (bits : Nat)
  | pointer (bits : Nat)
  deriving DecidableEq, Repr

/-- The typedef that introduces `n`, if any. -/
def lookupAlias (n : String) : Option TypedefDecl :=
  typedefs.find? (fun d => d.name == n)

/-- The struct declaration that introduces `n`, if any. -/
def lookupStruct (n : String) : Option StructDecl :=
  structs.find? (fun d => d.name == n)

/-- Follow typedef aliases until a built-in type is reached. -/
def resolvePrim : Nat → Base → Option Prim
  | _, Base.prim p => some p
  | 0, Base.named _ => none
  | fuel + 1, Base.named n =>
    match lookupAlias n with
    | some d => resolvePrim fuel d.target
    | none => none

/-- The scalar a built-in type denotes under a data model; `void` and
`instancetype` denote no scalar. -/
def primScalar (dm : DataModel) : Prim → Option Scalar
  | Prim.int => some (Scalar.sint (8 * dm.intBytes))
  | Prim.uint => some (Scalar.uint (8 * dm.intBytes))
  | Prim.long => some (Scalar.sint (8 * dm.longBytes))
  | Prim.ulong => some (Scalar.uint (8 * dm.longBytes))
  | Prim.llong => some (Scalar.sint (8 * dm.llongBytes))
  | Prim.ullong => some (Scalar.uint (8 * dm.llongBytes))
  | Prim.float => some (Scalar.flt (8 * dm.floatBytes))
  | Prim.double => some (Scalar.flt (8 * dm.doubleBytes))
  | Prim.id => some (Scalar.pointer (8 * dm.pointerBytes))
  | Prim.Class => some (Scalar.pointer (8 * dm.pointerBytes))
  | Prim.void => none
  | Prim.instancetype => none

/-- The scalar a field type resolves to through the header's aliases. -/
def scalarOf (dm : DataModel) (b : Base) : Option Scalar :=
  (resolvePrim typedefs.length b).bind (primScalar dm)

/-- Width in bytes of a scalar. -/
def Scalar.bytes : Scalar → Nat
  | Scalar.sint b => b / 8
  | Scalar.uint b => b / 8
  | Scalar.flt b => b / 8
  | Scalar.pointer b => b / 8

/-- Size and alignment of a type, in bytes. -/
structure Extent where
  size : Nat
  align : Nat
  deriving DecidableEq, Repr

/-- A field placed in a struct: name, byte offset and size. -/
structure Placed where
  name : String
  offset : Nat
  size : Nat
  deriving DecidableEq, Repr

/-- Layout of a struct: placed fields in order, total size and alignment. -/
structure Layout where
  fields : List Placed
  size : Nat
  align : Nat
  deriving DecidableEq, Repr

/-- Round `off` up to the next multiple of `a`. -/
def alignUp (off a : Nat) : Nat := (off + a - 1) / a * a

/-- Place one more field after the fields placed so far.  The accumulator is
the placed fields, the first free byte and the largest alignment seen. -/
def placeStep (acc : List Placed × Nat × Nat) (fe : String × Extent) :
    List Placed × Nat × Nat :=
  let off := alignUp acc.2.1 fe.2.align
  (acc.1 ++ [{ name := fe.1, offset := off, size := fe.2.size }],
   off + fe.2.size, max acc.2.2 fe.2.align)

/-- Natural-alignment layout of a field list whose extents are known: every
field starts at the first multiple of its alignment that is free, the struct
is aligned like its most aligned field and its size is rounded up to that. -/
def place (fes : List (String × Extent)) : Layout :=
  let r := fes.foldl placeStep ([], 0, 1)
  { fields := r.1, size := alignUp r.2.1 r.2.2, align := r.2.2 }

/-- Extents of the fields of a struct, given the extent of every type name;
fails when some field type has none. -/
def fieldExtents (ext : Base → Option Extent) : List Field → Option (List (String × Extent))
  | [] => some []
  | f :: fs =>
    match ext f.type, fieldExtents ext fs with
    | some e, some rest => some ((f.name, e) :: rest)
    | _, _ => none

/-- Size and alignment of a type name: a scalar is aligned to its own width, a
typedef has the extent of its target, a struct the extent of its layout. -/
def typeExtent (dm : DataModel) : Nat → Base → Option Extent
  | _, Base.prim p =>
    (primScalar dm p).map (fun s => { size := s.bytes, align := s.bytes })
  | 0, Base.named _ => none
  | fuel + 1, Base.named n =>
    match lookupAlias n with
    | some d => typeExtent dm fuel d.target
    | none =>
      match lookupStruct n with
      | some s =>
        (fieldExtents (typeExtent dm fuel) s.fields).map
          (fun fes => { size := (place fes).size, align := (place fes).align })
      | none => none

/-- Enough fuel to walk every typedef and every struct once. -/
def layoutFuel : Nat := typedefs.length + structs.length

/-- Layout of a declared struct under a data model. -/
def structLayout (dm : DataModel) (s : StructDecl) : Option Layout :=
  (fieldExtents (typeExtent dm layoutFuel) s.fields).map place

/-- Offsets at which the fields would sit if they were packed back to back,
starting at `start`. -/
def packedOffsets : Nat → List Placed → List Nat
  | _, [] => []
  | start, p :: ps => start :: packedOffsets (start + p.size) ps

/-- A layout has no padding when every field starts where the previous one
ends and the struct ends where the last field ends. -/
def Layout.noPadding (l : Layout) : Bool :=
  l.fields.map (fun p => p.offset) == packedOffsets 0 l.fields &&
  l.size == (l.fields.map (fun p => p.size)).sum

/-- Field names and declared types of a struct, in order. -/
def StructDecl.signature (s : StructDecl) : List (String × Base) :=
  s.fields.map (fun f => (f.name, f.type))

/-- The data model used by the 64-bit targets: `int` 4 bytes, `long` and
pointers 8, `long long` 8, `float` 4, `double` 8. -/
def lp64 : DataModel :=
  { intBytes := 4, longBytes := 8, llongBytes := 8, floatBytes := 4, doubleBytes := 8,
    pointerBytes := 8 }

/-- The data model of the 32-bit targets: `long` and pointers are 4 bytes. -/
def ilp32 : DataModel :=
  { intBytes := 4, longBytes := 4, llongBytes := 8, floatBytes := 4, doubleBytes := 8,
    pointerBytes := 4 }

/-- Layout of a C array whose elements have extent `e`, one element per
name: element `i` sits at offset `i * e.size`. -/
def arrayLayout (e : Extent) (names : List String) : Layout :=
  { fields := names.enum.map (fun p => { name := p.2, offset := p.1 * e.size, size := e.size }),
    size := names.length * e.size,
    align := e.align }

/-! ## Enumerations -/

/-- The integer code of the enumerator called `n`, if the enumeration has one. -/
def EnumDecl.code (e : EnumDecl) (n : String) : Option Int :=
  (e.constants.find? (fun c => c.name == n)).map (fun c => c.value)

/-- The enumerators whose code is `v`, in declaration order. -/
def EnumDecl.decode (e : EnumDecl) (v : Int) : List String :=
  (e.constants.filter (fun c => c.value == v)).map (fun c => c.name)

/-! ## Interfaces and the superclass relation -/

/-- The interface declaration that introduces `n`, if any. -/
def lookupInterface (n : String) : Option Interface :=
  interfaces.find? (fun i => i.name == n)

/-- The declared superclass of `n`; `none` for a root class and for a name the
header does not declare. -/
def superclassOf (n : String) : Option String :=
  (lookupInterface n).bind (fun i => i.super)

/-- The interfaces that name `n` as their superclass. -/
def subclassesOf (n : String) : List String :=
  (interfaces.filter (fun i => i.super == some n)).map (fun i => i.name)

/-- The members an interface declares itself; empty for an undeclared name. -/
def ownMembers (n : String) : List Member :=
  match lookupInterface n with
  | some i => i.members
  | none => []

/-- The class reached from `c` after `n` superclass steps, if the walk gets
that far. -/
def superN : Nat → String → Option String
  | 0, c => some c
  | n + 1, c => (superclassOf c).bind (superN n)

/-- The superclass chain of `c`: `c`, its superclass, and so on until a class
without superclass, or until the fuel runs out. -/
def superChain : Nat → String → List String
  | 0, c => [c]
  | fuel + 1, c =>
    match superclassOf c with
    | some s => c :: superChain fuel s
    | none => [c]

/-- The chain of `c` with one unit of fuel per declared interface. -/
def ancestorsOrSelf (c : String) : List String := superChain interfaces.length c

/-- The proper ancestors of `c`, nearest first. -/
def ancestors (c : String) : List String := (ancestorsOrSelf c).tail

/-- The declared interfaces whose chain passes through `a`, `a` included. -/
def descendantsOrSelf (a : String) : List String :=
  (interfaces.map (fun i => i.name)).filter (fun c => decide (a ∈ ancestorsOrSelf c))

/-- The members resolved on `c` by walking its chain: own members first, then
those of each ancestor. -/
def resolvedMembers (c : String) : List Member :=
  ((ancestorsOrSelf c).map ownMembers).flatten

/-- What identifies an operation: its kind and its selector or property name. -/
def Member.op (m : Member) : MemberKind × String := (m.kind, m.name)

/-- The operations resolved on `c`. -/
def resolvedOps (c : String) : List (MemberKind × String) :=
  (resolvedMembers c).map Member.op

/-- A property is read-only when `readonly` is among its attributes. -/
def Member.isReadonly (m : Member) : Bool := decide (PropAttr.readonly ∈ m.attrs)

/-- The name with its first character in upper case. -/
def capitalizeFirst (s : String) : String :=
  match s.data with
  | [] => ""
  | c :: cs => String.mk (c.toUpper :: cs)

/-- The selector of the setter of property `p`: `setP:`. -/
def setterSelector (p : String) : String := "set" ++ capitalizeFirst p ++ ":"

/-- Whether member `m` gives its class a setter for `p`: a property `p` that is
not read-only (its setter is synthesised), or an instance method `setP:`. -/
def Member.providesSetter (m : Member) (p : String) : Bool :=
  (m.kind == MemberKind.property && m.name == p && !m.isReadonly) ||
  (m.kind == MemberKind.instanceMethod && m.name == setterSelector p)

/-- Whether a setter for `p` resolves on `c`, own or inherited. -/
def hasSetter (c p : String) : Bool :=
  (resolvedMembers c).any (fun m => m.providesSetter p)

/-- The properties an interface declares itself, with their read-only flag. -/
def ownProperties (n : String) : List (String × Bool) :=
  ((ownMembers n).filter (fun m => m.kind == MemberKind.property)).map
    (fun m => (m.name, m.isReadonly))

/-! ## Name resolution -/

/-- A use of a type name: the line it stands on, the name, and the generic
parameters of the enclosing interface that are in scope there. -/
structure Ref where
  line : Nat
  base : Base
  scope : List String
  deriving DecidableEq, Repr

/-- The type names a type expression mentions: its head and the heads of its
generic arguments. -/
def Ty.bases (t : Ty) : List Base := t.base :: t.args.map (fun a => a.base)

/-- The type names a member mentions: in its return or property type and in
its argument types. -/
def Member.bases (m : Member) : List Base :=
  m.type.bases ++ (m.params.map (fun p => p.1.bases)).flatten

/-- Every use of a type name inside a declaration: typedef target, struct field
types, the type of a constant, and for an interface its superclass, the type
arguments passed to the superclass, and the types of its members. -/
def Decl.refs : Decl → List Ref
  | Decl.typedef d => [{ line := d.line, base := d.target, scope := [] }]
  | Decl.struct d => d.fields.map (fun f => { line := f.line, base := f.type, scope := [] })
  | Decl.enum _ => []
  | Decl.stringConst d => d.type.bases.map (fun b => { line := d.line, base := b, scope := [] })
  | Decl.interface d =>
    (match d.super with
      | some s => [{ line := d.line, base := Base.named s, scope := d.typeParams }]
      | none => []) ++
    d.superArgs.map (fun a => { line := d.line, base := Base.named a, scope := d.typeParams }) ++
    (d.members.map (fun m =>
      m.bases.map (fun b => { line := m.line, base := b, scope := d.typeParams }))).flatten
  | Decl.directive _ _ => []

/-- The type name a declaration introduces; constants and directives introduce
none. -/
def Decl.typeName : Decl → Option String
  | Decl.typedef d => some d.name
  | Decl.struct d => some d.name
  | Decl.enum d => some d.name
  | Decl.stringConst _ => none
  | Decl.interface d => some d.name
  | Decl.directive _ _ => none

/-- The line on which a declaration introduces its name. -/
def Decl.line : Decl → Nat
  | Decl.typedef d => d.line
  | Decl.struct d => d.line
  | Decl.enum d => d.line
  | Decl.stringConst d => d.line
  | Decl.interface d => d.line
  | Decl.directive l _ => l

/-- Whether a top-level item is a preprocessor or module directive. -/
def Decl.isDirective : Decl → Bool
  | Decl.directive _ _ => true
  | _ => false

/-- The line of the header on which the type name `n` is declared. -/
def declaredLine (n : String) : Option Nat :=
  (header.find? (fun d => d.typeName == some n)).map Decl.line

/-- A use resolves when it is a built-in, a generic parameter in scope, or a
name declared on an earlier line of the header. -/
def Ref.resolves (r : Ref) : Bool :=
  match r.base with
  | Base.prim _ => true
  | Base.named n =>
    decide (n ∈ r.scope) ||
    (match declaredLine n with
      | some l => decide (l < r.line)
      | none => false)

/-- Check one declaration against the names declared so far and return the
names declared after it; fails on a directive and on a use of a name that is
neither built-in, nor a generic parameter in scope, nor declared so far. -/
def checkDecl (env : List String) (d : Decl) : Option (List String) :=
  if d.isDirective then none
  else if d.refs.all (fun r =>
      match r.base with
      | Base.prim _ => true
      | Base.named n => decide (n ∈ r.scope) || decide (n ∈ env))
    then some (env ++ d.typeName.toList)
  else none

/-- Resolve a list of declarations top to bottom. -/
def checkDecls : List String → List Decl → Option (List String)
  | env, [] => some env
  | env, d :: ds =>
    match checkDecl env d with
    | some env1 => checkDecls env1 ds
    | none => none

/-! ## Value-type layout -/

/-- C1: `CMTime` declares exactly the fields value, timescale, flags, epoch in
that order; through the header's aliases they resolve to a signed 64-bit, a
signed 32-bit, an unsigned 32-bit and a signed 64-bit integer; under natural
alignment with `int` 4 bytes and `long long` 8 bytes the offsets are 0, 8, 12,
16, the size is 24 bytes and there is no padding between or after the fields. -/
theorem CMTime_fields_and_layout (dm : DataModel)
    (hint : dm.intBytes = 4) (hllong : dm.llongBytes = 8) :
    CMTime.signature =
      [("value", Base.named "CMTimeValue"), ("timescale", Base.named "CMTimeScale"),
       ("flags", Base.named "uint32_t"), ("epoch", Base.named "int64_t")] ∧
    CMTime.fields.map (fun f => scalarOf dm f.type) =
      [some (Scalar.sint 64), some (Scalar.sint 32), some (Scalar.uint 32),
       some (Scalar.sint 64)] ∧
    structLayout dm CMTime = some
      { fields := [⟨"value", 0, 8⟩, ⟨"timescale", 8, 4⟩, ⟨"flags", 12, 4⟩, ⟨"epoch", 16, 8⟩],
        size := 24, align := 8 } ∧
    (structLayout dm CMTime).map Layout.noPadding = some true := by
  obtain ⟨i, l, ll, f, d, p⟩ := dm
  simp only at hint hllong
  subst hint hllong
  refine ⟨by decide, ?_, ?_, ?_⟩ <;>
    simp [structLayout, fieldExtents, typeExtent, layoutFuel, lookupAlias, lookupStruct,
      typedefs, structs, CGSize, CGAffineTransform, CMTime, CMTimeRange, primScalar,
      Scalar.bytes, place, placeStep, alignUp, scalarOf, resolvePrim, Layout.noPadding,
      packedOffsets, arrayLayout, List.enum, List.enumFrom, List.range, List.range.loop]

/-- Witness for C1 at the 64-bit data model. -/
theorem CMTime_fields_and_layout_witness :
    lp64.intBytes = 4 ∧ lp64.llongBytes = 8 ∧
    structLayout lp64 CMTime = some
      { fields := [⟨"value", 0, 8⟩, ⟨"timescale", 8, 4⟩, ⟨"flags", 12, 4⟩, ⟨"epoch", 16, 8⟩],
        size := 24, align := 8 } :=
  ⟨by decide, by decide, (CMTime_fields_and_layout lp64 (by decide) (by decide)).2.2.1⟩

/-- C5: `CMTimeRange` declares exactly the fields start and duration, both of
type `CMTime`; under the same layout rule start is at offset 0, duration at
offset 24, which is the size of `CMTime`, the size is 48 bytes, twice the size
of `CMTime`, the alignment is 8, and there is no padding. -/
theorem CMTimeRange_fields_and_layout (dm : DataModel)
    (hint : dm.intBytes = 4) (hllong : dm.llongBytes = 8) :
    CMTimeRange.signature =
      [("start", Base.named "CMTime"), ("duration", Base.named "CMTime")] ∧
    typeExtent dm layoutFuel (Base.named "CMTime") = some { size := 24, align := 8 } ∧
    structLayout dm CMTimeRange = some
      { fields := [⟨"start", 0, 24⟩, ⟨"duration", 24, 24⟩], size := 2 * 24, align := 8 } ∧
    (structLayout dm CMTimeRange).map Layout.noPadding = some true := by
  obtain ⟨i, l, ll, f, d, p⟩ := dm
  simp only at hint hllong
  subst hint hllong
  refine ⟨by decide, ?_, ?_, ?_⟩ <;>
    simp [structLayout, fieldExtents, typeExtent, layoutFuel, lookupAlias, lookupStruct,
      typedefs, structs, CGSize, CGAffineTransform, CMTime, CMTimeRange, primScalar,
      Scalar.bytes, place, placeStep, alignUp, scalarOf, resolvePrim, Layout.noPadding,
      packedOffsets, arrayLayout, List.enum, List.enumFrom, List.range, List.range.loop]

/-- Witness for C5 at the 32-bit data model. -/
theorem CMTimeRange_fields_and_layout_witness :
    ilp32.intBytes = 4 ∧ ilp32.llongBytes = 8 ∧
    structLayout ilp32 CMTimeRange = some
      { fields := [⟨"start", 0, 24⟩, ⟨"duration", 24, 24⟩], size := 2 * 24, align := 8 } :=
  ⟨by decide, by decide, (CMTimeRange_fields_and_layout ilp32 (by decide) (by decide)).2.2.1⟩

/-- C6: `CGSize` has exactly the fields width, height and `CGAffineTransform`
exactly a, b, c, d, tx, ty, every one of type `CGFloat`, which is declared as
`double`; with an 8-byte `double` field number `i` is at offset `8 * i`, the
sizes are 16 and 48 bytes, and each struct is laid out like an array of its
fields. -/
theorem geometry_fields_and_layout (dm : DataModel) (hdouble : dm.doubleBytes = 8) :
    CGSize.signature = [("width", Base.named "CGFloat"), ("height", Base.named "CGFloat")] ∧
    CGAffineTransform.signature =
      [("a", Base.named "CGFloat"), ("b", Base.named "CGFloat"), ("c", Base.named "CGFloat"),
       ("d", Base.named "CGFloat"), ("tx", Base.named "CGFloat"),
       ("ty", Base.named "CGFloat")] ∧
    (lookupAlias "CGFloat").map (fun d => d.target) = some (Base.prim Prim.double) ∧
    typeExtent dm layoutFuel (Base.named "CGFloat") = some { size := 8, align := 8 } ∧
    (structLayout dm CGSize).map (fun l => (l.fields.map (fun p => p.offset), l.size)) =
      some ((List.range 2).map (fun i => 8 * i), 16) ∧
    (structLayout dm CGAffineTransform).map
        (fun l => (l.fields.map (fun p => p.offset), l.size)) =
      some ((List.range 6).map (fun i => 8 * i), 48) ∧
    structLayout dm CGSize =
      some (arrayLayout { size := 8, align := 8 } ["width", "height"]) ∧
    structLayout dm CGAffineTransform =
      some (arrayLayout { size := 8, align := 8 } ["a", "b", "c", "d", "tx", "ty"]) := by
  obtain ⟨i, l, ll, f, d, p⟩ := dm
  simp only at hdouble
  subst hdouble
  refine ⟨by decide, by decide, by decide, ?_, ?_, ?_, ?_, ?_⟩ <;>
    simp [structLayout, fieldExtents, typeExtent, layoutFuel, lookupAlias, lookupStruct,
      typedefs, structs, CGSize, CGAffineTransform, CMTime, CMTimeRange, primScalar,
      Scalar.bytes, place, placeStep, alignUp, scalarOf, resolvePrim, Layout.noPadding,
      packedOffsets, arrayLayout, List.enum, List.enumFrom, List.range, List.range.loop]

/-- Witness for C6 at the 64-bit data model. -/
theorem geometry_fields_and_layout_witness :
    lp64.doubleBytes = 8 ∧
    structLayout lp64 CGSize =
      some (arrayLayout { size := 8, align := 8 } ["width", "height"]) :=
  ⟨by decide, (geometry_fields_and_layout lp64 (by decide)).2.2.2.2.2.2.1⟩

/-! ## The export-session status enumeration -/

/-- An enumerator found by name is one of the declared enumerators. -/
theorem EnumDecl.code_eq_some (e : EnumDecl) (n : String) (v : Int)
    (h : e.code n = some v) : ∃ c ∈ e.constants, c.name = n ∧ c.value = v := by
  unfold EnumDecl.code at h
  cases hf : e.constants.find? (fun c => c.name == n) with
  | none => simp [hf] at h
  | some c =>
    simp [hf] at h
    refine ⟨c, List.mem_of_find?_eq_some hf, ?_, h⟩
    simpa using List.find?_some hf

/-- C2: `AVAssetExportSessionStatus` has exactly the six constants unknown,
waiting, exporting, completed, failed, cancelled, in that order, with codes 0
to 5; the constant-to-code mapping is injective, its image is exactly the
integers 0 to 5, every integer in that range decodes to exactly one status and
no integer outside it decodes to any. -/
theorem status_enum_codes :
    AVAssetExportSessionStatus.constants.map (fun c => (c.name, c.value)) =
      [("AVAssetExportSessionStatusUnknown", 0), ("AVAssetExportSessionStatusWaiting", 1),
       ("AVAssetExportSessionStatusExporting", 2), ("AVAssetExportSessionStatusCompleted", 3),
       ("AVAssetExportSessionStatusFailed", 4), ("AVAssetExportSessionStatusCancelled", 5)] ∧
    (∀ n m : String, ∀ v : Int, AVAssetExportSessionStatus.code n = some v →
      AVAssetExportSessionStatus.code m = some v → n = m) ∧
    (∀ v : Int, (∃ n, AVAssetExportSessionStatus.code n = some v) ↔ 0 ≤ v ∧ v ≤ 5) ∧
    (∀ v : Int, 0 ≤ v ∧ v ≤ 5 →
      ∃ n, AVAssetExportSessionStatus.decode v = [n] ∧
        AVAssetExportSessionStatus.code n = some v) ∧
    (∀ v : Int, ¬ (0 ≤ v ∧ v ≤ 5) → AVAssetExportSessionStatus.decode v = []) := by
  have hdec : ∀ v : Int, 0 ≤ v ∧ v ≤ 5 →
      ∃ n, AVAssetExportSessionStatus.decode v = [n] ∧
        AVAssetExportSessionStatus.code n = some v := by
    rintro v ⟨h0, h5⟩
    interval_cases v
    · exact ⟨"AVAssetExportSessionStatusUnknown", by decide, by decide⟩
    · exact ⟨"AVAssetExportSessionStatusWaiting", by decide, by decide⟩
    · exact ⟨"AVAssetExportSessionStatusExporting", by decide, by decide⟩
    · exact ⟨"AVAssetExportSessionStatusCompleted", by decide, by decide⟩
    · exact ⟨"AVAssetExportSessionStatusFailed", by decide, by decide⟩
    · exact ⟨"AVAssetExportSessionStatusCancelled", by decide, by decide⟩
  refine ⟨by decide, ?_, ?_, hdec, ?_⟩
  · intro n m v hn hm
    obtain ⟨a, ha, han, hav⟩ := EnumDecl.code_eq_some _ n v hn
    obtain ⟨b, hb, hbm, hbv⟩ := EnumDecl.code_eq_some _ m v hm
    simp only [AVAssetExportSessionStatus, List.mem_cons, List.mem_singleton,
      List.not_mem_nil, or_false] at ha hb
    rcases ha with rfl | rfl | rfl | rfl | rfl | rfl <;>
      rcases hb with rfl | rfl | rfl | rfl | rfl | rfl <;>
      subst han hbm <;>
      first
        | rfl
        | (exfalso; dsimp only at hav hbv; omega)
  · intro v
    constructor
    · rintro ⟨n, hn⟩
      obtain ⟨a, ha, -, hav⟩ := EnumDecl.code_eq_some _ n v hn
      simp only [AVAssetExportSessionStatus, List.mem_cons, List.mem_singleton,
        List.not_mem_nil, or_false] at ha
      rcases ha with rfl | rfl | rfl | rfl | rfl | rfl <;> simp at hav <;> omega
    · intro h
      obtain ⟨n, -, hn⟩ := hdec v h
      exact ⟨n, hn⟩
  · intro v hv
    have h0 : v ≠ 0 := by omega
    have h1 : v ≠ 1 := by omega
    have h2 : v ≠ 2 := by omega
    have h3 : v ≠ 3 := by omega
    have h4 : v ≠ 4 := by omega
    have h5 : v ≠ 5 := by omega
    simp [EnumDecl.decode, AVAssetExportSessionStatus, List.filter_cons, Ne.symm h0, Ne.symm h1,
      Ne.symm h2, Ne.symm h3, Ne.symm h4, Ne.symm h5]

/-- Witness for C2: the code 3 decodes to the completed status alone, and 6
decodes to nothing. -/
theorem status_enum_codes_witness :
    (∃ n, AVAssetExportSessionStatus.decode 3 = [n] ∧
      AVAssetExportSessionStatus.code n = some 3) ∧
    AVAssetExportSessionStatus.decode 6 = [] :=
  ⟨status_enum_codes.2.2.2.1 3 ⟨by decide, by decide⟩,
   status_enum_codes.2.2.2.2 6 (by decide)⟩

/-! ## The superclass relation -/

/-- C7: the superclass of `AVURLAsset` is `AVAsset`, that of
`AVMutableVideoCompositionInstruction` is `AVVideoCompositionInstruction`, that
of `AVMutableAudioMixInputParameters` is `AVAudioMixInputParameters`; no
declared interface names `AVAssetExportSession` as its superclass, and its own
superclass is the root `NSObject`. -/
theorem superclass_edges :
    superclassOf "AVURLAsset" = some "AVAsset" ∧
    superclassOf "AVMutableVideoCompositionInstruction" =
      some "AVVideoCompositionInstruction" ∧
    superclassOf "AVMutableAudioMixInputParameters" = some "AVAudioMixInputParameters" ∧
    (∀ i ∈ interfaces, i.super ≠ some "AVAssetExportSession") ∧
    subclassesOf "AVAssetExportSession" = [] ∧
    superclassOf "AVAssetExportSession" = some "NSObject" ∧
    (lookupInterface "NSObject").map (fun i => i.super) = some none := by
  decide

/-- Witness for C7: `AVURLAsset` is a declared interface and does not extend
the export session. -/
theorem superclass_edges_witness :
    ∃ i, lookupInterface "AVURLAsset" = some i ∧ i ∈ interfaces ∧
      i.super ≠ some "AVAssetExportSession" :=
  match h : lookupInterface "AVURLAsset" with
  | some i =>
    ⟨i, rfl, List.mem_of_find?_eq_some h,
      superclass_edges.2.2.2.1 i (List.mem_of_find?_eq_some h)⟩
  | none => absurd h (by decide)

/-! ## Read-only properties -/

/-- C8: the members of `AVAssetTrack` are exactly the properties naturalSize
(`CGSize`), preferredTransform (`CGAffineTransform`) and nominalFrameRate
(`float`), all read-only; on `AVAssetExportSession` status and error are
read-only and every other property (outputURL, outputFileType,
videoComposition, audioMix, timeRange) is writable; no setter for a read-only
property resolves on its class or on any declared subclass. -/
theorem readonly_properties :
    (ownMembers "AVAssetTrack").map (fun m => (m.kind, m.name, m.type, m.isReadonly)) =
      [(MemberKind.property, "naturalSize", tName "CGSize", true),
       (MemberKind.property, "preferredTransform", tName "CGAffineTransform", true),
       (MemberKind.property, "nominalFrameRate", tPrim Prim.float, true)] ∧
    ownProperties "AVAssetExportSession" =
      [("outputURL", false), ("outputFileType", false), ("videoComposition", false),
       ("audioMix", false), ("status", true), ("error", true), ("timeRange", false)] ∧
    (∀ c ∈ descendantsOrSelf "AVAssetTrack",
      ∀ p ∈ ["naturalSize", "preferredTransform", "nominalFrameRate"],
        hasSetter c p = false) ∧
    (∀ c ∈ descendantsOrSelf "AVAssetExportSession",
      ∀ p ∈ ["status", "error"], hasSetter c p = false) ∧
    (∀ p ∈ ["outputURL", "outputFileType", "videoComposition", "audioMix", "timeRange"],
      hasSetter "AVAssetExportSession" p = true) := by
  decide

/-- Witness for C8: no setter for status resolves on the export session, and
one for timeRange does. -/
theorem readonly_properties_witness :
    "AVAssetExportSession" ∈ descendantsOrSelf "AVAssetExportSession" ∧
    hasSetter "AVAssetExportSession" "status" = false ∧
    hasSetter "AVAssetExportSession" "timeRange" = true :=
  ⟨by decide,
   readonly_properties.2.2.2.1 "AVAssetExportSession" (by decide) "status" (by decide),
   readonly_properties.2.2.2.2 "timeRange" (by decide)⟩

/-! ## Inheritance -/

/-- Walking `a + b` steps is walking `a` steps and then `b` more. -/
theorem superN_add (a b : Nat) (c : String) :
    superN (a + b) c = (superN a c).bind (superN b) := by
  induction a generalizing c with
  | zero => simp [superN]
  | succ a ih =>
    rw [Nat.succ_add]
    simp only [superN]
    cases superclassOf c with
    | none => rfl
    | some s => simpa using ih s

/-- C9: for every declared interface the superclass chain reaches `NSObject`
after at most two steps and stops there, so it is finite and has no cycle; the
operations resolved on the interface along the chain include those resolved on
each ancestor; tracksWithMediaType: resolves on `AVURLAsset`, objectAtIndex:,
count and addObject: on `NSMutableArray`, alloc and init on every class. -/
theorem inherited_operations (i : Interface) (hi : i ∈ interfaces) :
    (∃ n, n ≤ 2 ∧ superN n i.name = some "NSObject") ∧
    superclassOf "NSObject" = none ∧
    (∀ n, 3 ≤ n → superN n i.name = none) ∧
    (∀ n, 1 ≤ n → superN n i.name ≠ some i.name) ∧
    (ancestorsOrSelf i.name).Nodup ∧
    (ancestorsOrSelf i.name).length ≤ 3 ∧
    (ancestorsOrSelf i.name).getLast? = some "NSObject" ∧
    (∀ a ∈ ancestors i.name, ∀ op ∈ resolvedOps a, op ∈ resolvedOps i.name) ∧
    (MemberKind.classMethod, "alloc") ∈ resolvedOps i.name ∧
    (MemberKind.instanceMethod, "init") ∈ resolvedOps i.name ∧
    (MemberKind.instanceMethod, "tracksWithMediaType:") ∈ resolvedOps "AVURLAsset" ∧
    (MemberKind.instanceMethod, "objectAtIndex:") ∈ resolvedOps "NSMutableArray" ∧
    (MemberKind.property, "count") ∈ resolvedOps "NSMutableArray" ∧
    (MemberKind.instanceMethod, "addObject:") ∈ resolvedOps "NSMutableArray" := by
  have hreach : ∀ j ∈ interfaces,
      superN 0 j.name = some "NSObject" ∨ superN 1 j.name = some "NSObject" ∨
        superN 2 j.name = some "NSObject" := by decide
  have hstop : ∀ j ∈ interfaces, superN 3 j.name = none := by decide
  have hshort : ∀ j ∈ interfaces,
      superN 1 j.name ≠ some j.name ∧ superN 2 j.name ≠ some j.name := by decide
  have hchain : ∀ j ∈ interfaces,
      (ancestorsOrSelf j.name).Nodup ∧ (ancestorsOrSelf j.name).length ≤ 3 ∧
        (ancestorsOrSelf j.name).getLast? = some "NSObject" := by decide
  have hsup : ∀ j ∈ interfaces,
      ∀ a ∈ ancestors j.name, ∀ op ∈ resolvedOps a, op ∈ resolvedOps j.name := by decide
  have hroot : ∀ j ∈ interfaces,
      (MemberKind.classMethod, "alloc") ∈ resolvedOps j.name ∧
        (MemberKind.instanceMethod, "init") ∈ resolvedOps j.name := by decide
  have hlong : ∀ n, 3 ≤ n → superN n i.name = none := by
    intro n hn
    obtain ⟨k, rfl⟩ := Nat.exists_eq_add_of_le hn
    rw [superN_add, hstop i hi]
    rfl
  refine ⟨?_, by decide, hlong, ?_, (hchain i hi).1, (hchain i hi).2.1, (hchain i hi).2.2,
    hsup i hi, (hroot i hi).1, (hroot i hi).2, by decide, by decide, by decide, by decide⟩
  · rcases hreach i hi with h | h | h
    · exact ⟨0, by omega, h⟩
    · exact ⟨1, by omega, h⟩
    · exact ⟨2, by omega, h⟩
  · intro n hn
    rcases Nat.lt_or_ge n 3 with hlt | hge
    · have hcases : n = 1 ∨ n = 2 := by omega
      rcases hcases with rfl | rfl
      · exact (hshort i hi).1
      · exact (hshort i hi).2
    · rw [hlong n hge]
      exact fun h => Option.noConfusion h

/-- Witness for C9 at `NSMutableArray`, two steps below the root. -/
theorem inherited_operations_witness :
    ∃ i, lookupInterface "NSMutableArray" = some i ∧ i ∈ interfaces ∧
      (ancestorsOrSelf i.name).length ≤ 3 ∧
      (MemberKind.classMethod, "alloc") ∈ resolvedOps i.name :=
  match h : lookupInterface "NSMutableArray" with
  | some i =>
    ⟨i, rfl, List.mem_of_find?_eq_some h,
      (inherited_operations i (List.mem_of_find?_eq_some h)).2.2.2.2.2.1,
      (inherited_operations i (List.mem_of_find?_eq_some h)).2.2.2.2.2.2.2.2.1⟩
  | none => absurd h (by decide)

/-! ## The header is standalone -/

/-- C10: every type name a declaration of the header refers to is a built-in,
a generic parameter of the enclosing interface, or a name declared on an
earlier line of the header; the header has no directive; so resolving its
declarations top to bottom succeeds. -/
theorem header_standalone :
    (∀ d ∈ header, ∀ r ∈ d.refs, r.resolves = true) ∧
    (∀ d ∈ header, d.isDirective = false) ∧
    (header.map Decl.line).Sorted (fun a b => a < b) ∧
    (header.filterMap Decl.typeName).Nodup ∧
    checkDecls [] header = some (header.filterMap Decl.typeName) := by
  decide

/-- Witness for C10: the alias `CMTimeValue` of line 27 is a declaration of
the header, and its target `int64_t`, declared on line 5, resolves. -/
theorem header_standalone_witness :
    Decl.typedef { line := 27, name := "CMTimeValue", target := Base.named "int64_t" } ∈
      header ∧
    declaredLine "int64_t" = some 5 ∧
    Ref.resolves { line := 27, base := Base.named "int64_t", scope := [] } = true :=
  ⟨by decide, by decide,
   header_standalone.1
     (Decl.typedef { line := 27, name := "CMTimeValue", target := Base.named "int64_t" })
     (by decide) { line := 27, base := Base.named "int64_t", scope := [] } (by decide)⟩

end AVFoundationStub
